import Mathlib

/-!
Shallow embedding of `src/pack.rs` from the wasm-utils repository: the
`pack_instance` transformation over parity-wasm style modules, together with
theorems settling the specification claims about it.

Machine integers are modelled as `Nat`/`Int` with explicit wrapping where the
Rust source performs casts or release-mode wrapping arithmetic (`as i32`,
`as u32`, `usize` subtraction).
-/

namespace PWasm

/-- The four primitive value types of the stack machine (`elements::ValueType`). -/
inductive ValueType
  | i32
  | i64
  | f32
  | f64
deriving DecidableEq, Repr

/-- A function signature (`elements::Type::Function`): ordered parameter list and
an optional single return type, as in the parity-wasm data model. -/
structure FunctionType where
  params : List ValueType
  return_type : Option ValueType
deriving DecidableEq, Repr

/-- The opcodes of the stack machine that `pack.rs` manipulates or inspects
(`elements::Opcode`); `I32Const` carries the `i32` payload as an `Int`.
`GetGlobal` and `Nop` stand in for the opcodes other than `I32Const` that may
head a data-segment offset expression. -/
inductive Opcode
  | Nop
  | End
  | GetLocal (n : Nat)
  | GetGlobal (n : Nat)
  | Call (n : Nat)
  | I32Const (k : Int)
  | I32Store (align : Nat) (offset : Nat)
deriving DecidableEq, Repr

/-- The internal reference of an export entry (`elements::Internal`). -/
inductive Internal
  | Function (n : Nat)
  | Table (n : Nat)
  | Memory (n : Nat)
  | Global (n : Nat)
deriving DecidableEq, Repr

/-- An export-section entry (`elements::ExportEntry`): field name plus internal. -/
structure ExportEntry where
  field : String
  internal : Internal
deriving DecidableEq, Repr

/-- The external kind of an import entry (`elements::External`). -/
inductive External
  | Function (type_idx : Nat)
  | Table (min : Nat) (max : Option Nat)
  | Memory (min : Nat) (max : Option Nat)
  | Global (content : ValueType) (mutable : Bool)
deriving DecidableEq, Repr

/-- An import-section entry (`elements::ImportEntry`). -/
structure ImportEntry where
  module : String
  field : String
  external : External
deriving DecidableEq, Repr

/-- A data segment (`elements::DataSegment`): linear-memory index, offset
expression (an opcode list, normally `[I32Const k, End]`), and raw bytes. -/
structure DataSegment where
  index : Nat
  offset : List Opcode
  value : List Nat
deriving DecidableEq, Repr

/-- An element segment (`elements::ElementSegment`). -/
structure ElementSegment where
  index : Nat
  offset : List Opcode
  members : List Nat
deriving DecidableEq, Repr

/-- A global-section entry (`elements::GlobalEntry`). -/
structure GlobalEntry where
  content : ValueType
  mutable : Bool
  init : List Opcode
deriving DecidableEq, Repr

/-- Resizable limits for tables and memories (`elements::ResizableLimits`). -/
structure Limits where
  min : Nat
  max : Option Nat
deriving DecidableEq, Repr

/-- A code-section function body (`elements::FuncBody`): local declarations and
the opcode sequence. -/
structure FuncBody where
  locals : List (Nat × ValueType)
  code : List Opcode
deriving DecidableEq, Repr

/-- A parity-wasm module (`elements::Module`): at most one section of each kind,
each section an ordered entry list. Sections the packer never inspects are kept
so that frame conditions can be stated. -/
structure Module where
  type_section : Option (List FunctionType)
  import_section : Option (List ImportEntry)
  function_section : Option (List Nat)
  table_section : Option (List Limits)
  memory_section : Option (List Limits)
  global_section : Option (List GlobalEntry)
  export_section : Option (List ExportEntry)
  start_section : Option Nat
  element_section : Option (List ElementSegment)
  code_section : Option (List FuncBody)
  data_section : Option (List DataSegment)
deriving DecidableEq, Repr

/-- Modelled from the spec: the export-name constant `_create` (declared in the
crate root, which is not under `src/`; §6.2 fixes its value). -/
def CREATE_SYMBOL : String := "_create"

/-- Modelled from the spec: the export-name constant `_call` (declared in the
crate root, which is not under `src/`; §6.2 fixes its value). -/
def CALL_SYMBOL : String := "_call"

/-- `ImportSection::functions()`: the number of import entries of function kind;
function imports occupy the low range of the combined function index space. -/
def import_functions (entries : List ImportEntry) : Nat :=
  (entries.filter fun e =>
    match e.external with
    | External.Function _ => true
    | _ => false).length

/-- Interpret an integer as a 32-bit two's-complement value: the result of a
Rust `as i32` cast, and of release-mode wrapping `i32` arithmetic. -/
def wrap32 (x : Int) : Int :=
  (x + 2 ^ 31) % 2 ^ 32 - 2 ^ 31

/-- Wrapping 32-bit addition (release-mode `i32` `+`). -/
def add32 (a b : Int) : Int := wrap32 (a + b)

/-- Wrapping 32-bit subtraction (release-mode `i32` `-`). -/
def sub32 (a b : Int) : Int := wrap32 (a - b)

/-- Wrapping `usize` subtraction (release-mode `a - b` on 64-bit `usize`),
returned as the natural number the wrapped result denotes. -/
def usize_sub (a b : Nat) : Nat :=
  (((a : Int) - (b : Int)) % 2 ^ 64).toNat

/-- The pack error enumeration from `pack.rs`. -/
inductive Error
  | MalformedModule
  | NoTypeSection
  | NoExportSection
  | NoCodeSection
  | InvalidCreateSignature
  | NoCreateSymbol
  | InvalidCreateMember
deriving DecidableEq, Repr

/-- Lines 30–55 of `pack.rs`: locate the `_create` export, require it to be a
function, fetch its type from the Function section (note: the source indexes
the Function section with the export's combined `function_index`, without
subtracting the import count), look the signature up in the Type section and
validate it as `(i32) → ()`. On success returns the export's combined
`function_index`. -/
def resolve_create (ctor_module : Module) : Except Error Nat :=
  match ctor_module.export_section with
  | none => Except.error Error.NoExportSection
  | some entries =>
    match entries.find? (fun entry => CREATE_SYMBOL == entry.field) with
    | none => Except.error Error.NoCreateSymbol
    | some found_entry =>
      match found_entry.internal with
      | Internal.Function function_index =>
        match ctor_module.function_section with
        | none => Except.error Error.NoCodeSection
        | some fentries =>
          match fentries.get? function_index with
          | none => Except.error Error.MalformedModule
          | some type_id =>
            match ctor_module.type_section with
            | none => Except.error Error.NoTypeSection
            | some types =>
              match types.get? type_id with
              | none => Except.error Error.MalformedModule
              | some (FunctionType.mk params return_type) =>
                if params.length != 1 || params.getD 0 ValueType.i32 != ValueType.i32 then
                  Except.error Error.InvalidCreateSignature
                else if return_type.isSome then
                  Except.error Error.InvalidCreateSignature
                else
                  Except.ok function_index
      | _ => Except.error Error.InvalidCreateMember

/-- Lines 72–82 of `pack.rs`: choose the memory index and offset of the new
data segment from the last existing segment. If its offset expression starts
with `I32Const offst` the new offset is `offst + (len + 4) - len % 4` in
`i32` arithmetic (`len` is the byte length cast `as i32`, `%` is Rust's
truncated remainder); otherwise both fall back to `(0, 0)`. -/
def data_scan (entries : List DataSegment) : Nat × Int :=
  match entries.getLast? with
  | none => (0, 0)
  | some entry =>
    match entry.offset.head? with
    | some (Opcode.I32Const offst) =>
      let len : Int := wrap32 (Int.ofNat entry.value.length)
      (entry.index, sub32 (add32 offst (add32 len 4)) (Int.tmod len 4))
    | _ => (0, 0)

/-- Lines 68–93 of `pack.rs`: walk the sections; on the Data section (when one
exists) append a segment carrying `raw_module` at the scanned offset and record
`code_data_address`. When the module has no Data section nothing is appended
and the address stays `0` (the source's loop body never runs; see its TODO). -/
def append_data (raw_module : List Nat) (m : Module) : Module × Int :=
  match m.data_section with
  | none => (m, 0)
  | some entries =>
    let scan := data_scan entries
    ({ m with data_section := some (entries ++
        [DataSegment.mk scan.1 [Opcode.I32Const scan.2, Opcode.End] raw_module]) },
     scan.2)

/-- Lines 99–109 of `pack.rs`: the synthesized trampoline body. `Call` carries
`create_func_id as u32` and the length constant is `raw_module.len() as i32`. -/
def trampoline_body (create_func_id : Nat) (code_data_address : Int)
    (raw_len : Nat) : List Opcode :=
  [ Opcode.GetLocal 0,
    Opcode.Call (create_func_id % 2 ^ 32),
    Opcode.GetLocal 0,
    Opcode.I32Const code_data_address,
    Opcode.I32Store 0 8,
    Opcode.GetLocal 0,
    Opcode.I32Const (wrap32 (Int.ofNat raw_len)),
    Opcode.I32Store 0 12,
    Opcode.End ]

/-- Modelled from the spec: the module builder (`parity_wasm::builder`, §4.2,
not under `src/`). Appends a new locally defined function: the signature is
appended to the Type section, the Function section gains an entry referencing
it, and the Code section gains the body (sections are created when absent). -/
def add_function (signature : FunctionType) (body : List Opcode) (m : Module) :
    Module :=
  let types := m.type_section.getD []
  let fentries := m.function_section.getD []
  let bodies := m.code_section.getD []
  { m with
      type_section := some (types ++ [signature]),
      function_section := some (fentries ++ [types.length]),
      code_section := some (bodies ++ [FuncBody.mk [] body]) }

/-- Lines 116–121 of `pack.rs`: the rewrite applied to each export entry. An
entry named `_create` is renamed to `_call` and retargeted at
`Internal::Function(last_function_index as u32)`; other entries are kept. -/
def rename_entry (last_function_index : Nat) (entry : ExportEntry) : ExportEntry :=
  if CREATE_SYMBOL == entry.field then
    ExportEntry.mk CALL_SYMBOL (Internal.Function (last_function_index % 2 ^ 32))
  else
    entry

/-- Lines 113–126 of `pack.rs`: rewrite the Export section (when present) by
`rename_entry`. -/
def rename_exports (last_function_index : Nat) (m : Module) : Module :=
  { m with
      export_section := m.export_section.map fun entries =>
        entries.map (rename_entry last_function_index) }

/-- The infallible tail of `pack_instance` (lines 57–128), run once resolution
has produced the combined `function_index` of the `_create` export:
`create_func_id` is the `usize` difference `function_index - import_count`,
the runtime bytes are appended to the Data section, the trampoline is built,
and every `_create` export is renamed and retargeted. -/
def build_packed (raw_module : List Nat) (ctor_module : Module)
    (function_index : Nat) : Module :=
  let ctor_import_functions :=
    (ctor_module.import_section.map import_functions).getD 0
  let create_func_id := usize_sub function_index ctor_import_functions
  let last_function_index :=
    (ctor_module.function_section.map List.length).getD 0 + ctor_import_functions
  let step := append_data raw_module ctor_module
  let new_module := add_function (FunctionType.mk [ValueType.i32] none)
    (trampoline_body create_func_id step.2 raw_module.length) step.1
  rename_exports last_function_index new_module

/-- `pack_instance` from `pack.rs`: resolve the `_create` constructor, then
rewrite the module. -/
def pack_instance (raw_module : List Nat) (ctor_module : Module) :
    Except Error Module :=
  match resolve_create ctor_module with
  | Except.error e => Except.error e
  | Except.ok function_index =>
    Except.ok (build_packed raw_module ctor_module function_index)

/-- The empty module: every section absent. -/
def empty_module : Module :=
  Module.mk none none none none none none none none none none none

/-- The `(i32) → ()` constructor signature. -/
def ctor_sig : FunctionType := FunctionType.mk [ValueType.i32] none

/-- A deployer with one imported function and the constructor exported at
combined index 1 (local index 0); both local functions have the `(i32) → ()`
signature. -/
def import_deployer : Module :=
  { empty_module with
      type_section := some [ctor_sig],
      import_section := some [ImportEntry.mk "env" "f" (External.Function 0)],
      function_section := some [0, 0],
      export_section := some [ExportEntry.mk "_create" (Internal.Function 1)] }

/-- A deployer with one imported function, a one-entry Function section, and
the constructor exported at combined index 1, whose local index is 0. -/
def import_deployer_short : Module :=
  { empty_module with
      type_section := some [ctor_sig],
      import_section := some [ImportEntry.mk "env" "f" (External.Function 0)],
      function_section := some [0],
      export_section := some [ExportEntry.mk "_create" (Internal.Function 1)] }

/-- A deployer whose `_create` export targets combined index 0, which is the
imported function: the function index is below the import function count. -/
def import_export_deployer : Module :=
  { empty_module with
      type_section := some [ctor_sig],
      import_section := some [ImportEntry.mk "env" "f" (External.Function 0)],
      function_section := some [0],
      export_section := some [ExportEntry.mk "_create" (Internal.Function 0)] }

/-- A minimal accepted deployer: one local `(i32) → ()` function exported as
`_create`, with a present but empty Data section. -/
def basic_deployer : Module :=
  { empty_module with
      type_section := some [ctor_sig],
      function_section := some [0],
      export_section := some [ExportEntry.mk "_create" (Internal.Function 0)],
      data_section := some [] }

/-- The minimal accepted deployer with no Data section at all. -/
def nodata_deployer : Module := { basic_deployer with data_section := none }

/-- An accepted deployer whose last (only) data segment has memory index 5 and
an offset expression that does not start with `I32Const`. -/
def fallback_deployer : Module :=
  { basic_deployer with
      data_section :=
        some [DataSegment.mk 5 [Opcode.GetGlobal 0, Opcode.End] [7, 7]] }

/-- An accepted deployer that already exports `_call` next to `_create`. -/
def dupcall_deployer : Module :=
  { basic_deployer with
      export_section := some [ExportEntry.mk "_call" (Internal.Function 0),
                              ExportEntry.mk "_create" (Internal.Function 0)] }

/-- An accepted deployer with two data segments: an earlier one ending at
offset 104 and a later (last) one at the unaligned offset 1 with no bytes. -/
def unsorted_deployer : Module :=
  { basic_deployer with
      data_section :=
        some [DataSegment.mk 0 [Opcode.I32Const 100, Opcode.End] [0, 0, 0, 0],
              DataSegment.mk 0 [Opcode.I32Const 1, Opcode.End] []] }

/-- An accepted deployer whose last data segment sits at offset 16 with three
bytes: the alignment scenario of the specification. -/
def aligned_deployer : Module :=
  { basic_deployer with
      data_section :=
        some [DataSegment.mk 0 [Opcode.I32Const 16, Opcode.End] [0, 0, 0]] }

/-- An accepted deployer with one extra export, a memory section, a start
section and a data segment, used to exercise the frame conditions. -/
def rich_deployer : Module :=
  { basic_deployer with
      export_section := some [ExportEntry.mk "foo" (Internal.Global 2),
                              ExportEntry.mk "_create" (Internal.Function 0)],
      memory_section := some [Limits.mk 1 (some 1)],
      start_section := some 0,
      data_section :=
        some [DataSegment.mk 0 [Opcode.I32Const 16, Opcode.End] [0]] }

theorem pack_ok_elim {raw : List Nat} {d m : Module}
    (h : pack_instance raw d = Except.ok m) :
    ∃ fi, resolve_create d = Except.ok fi ∧ m = build_packed raw d fi := by
  unfold pack_instance at h
  split at h
  · exact Except.noConfusion h
  next fi hres =>
    refine ⟨fi, hres, ?_⟩
    injection h with h
    exact h.symm

theorem resolve_create_ok {d : Module} {fi : Nat}
    (h : resolve_create d = Except.ok fi) :
    ∃ entries found_entry,
      d.export_section = some entries ∧
      entries.find? (fun entry => CREATE_SYMBOL == entry.field) = some found_entry ∧
      found_entry.internal = Internal.Function fi ∧
      ∃ fentries type_id types,
        d.function_section = some fentries ∧
        fentries.get? fi = some type_id ∧
        d.type_section = some types ∧
        types.get? type_id = some ctor_sig := by
  unfold resolve_create at h
  split at h
  · exact Except.noConfusion h
  next entries hexp =>
    split at h
    · exact Except.noConfusion h
    next found_entry hfind =>
      split at h
      next function_index hint =>
        split at h
        · exact Except.noConfusion h
        next fentries hfun =>
          split at h
          · exact Except.noConfusion h
          next type_id hget =>
            split at h
            · exact Except.noConfusion h
            next types htyp =>
              split at h
              · exact Except.noConfusion h
              next params return_type hty =>
                split at h
                · exact Except.noConfusion h
                next hsig =>
                  split at h
                  · exact Except.noConfusion h
                  next hret =>
                    injection h with h
                    subst h
                    refine ⟨entries, found_entry, hexp, hfind, hint,
                      fentries, type_id, types, hfun, hget, htyp, ?_⟩
                    rw [hty]
                    simp only [Bool.or_eq_true, bne_iff_ne, ne_eq, not_or,
                      Decidable.not_not] at hsig
                    obtain ⟨hlen, hfirst⟩ := hsig
                    obtain ⟨a, ha⟩ := List.length_eq_one.mp hlen
                    subst ha
                    simp only [List.getD, List.get?, Option.getD_some] at hfirst
                    have hret2 : return_type = none := by
                      cases return_type <;> simp_all
                    simp [ctor_sig, hfirst, hret2]
      · exact Except.noConfusion h

theorem append_data_frame (raw : List Nat) (m : Module) :
    (append_data raw m).1.type_section = m.type_section ∧
    (append_data raw m).1.import_section = m.import_section ∧
    (append_data raw m).1.function_section = m.function_section ∧
    (append_data raw m).1.table_section = m.table_section ∧
    (append_data raw m).1.memory_section = m.memory_section ∧
    (append_data raw m).1.global_section = m.global_section ∧
    (append_data raw m).1.export_section = m.export_section ∧
    (append_data raw m).1.start_section = m.start_section ∧
    (append_data raw m).1.element_section = m.element_section ∧
    (append_data raw m).1.code_section = m.code_section := by
  cases hd : m.data_section <;> simp [append_data, hd]

theorem append_data_data_some {raw : List Nat} {m : Module}
    {entries : List DataSegment} (hd : m.data_section = some entries) :
    (append_data raw m).1.data_section =
      some (entries ++
        [DataSegment.mk (data_scan entries).1
          [Opcode.I32Const (data_scan entries).2, Opcode.End] raw]) := by
  simp [append_data, hd]

theorem append_data_data_none {raw : List Nat} {m : Module}
    (hd : m.data_section = none) :
    (append_data raw m).1.data_section = none := by
  simp [append_data, hd]

theorem append_data_address_some {raw : List Nat} {m : Module}
    {entries : List DataSegment} (hd : m.data_section = some entries) :
    (append_data raw m).2 = (data_scan entries).2 := by
  simp [append_data, hd]

theorem append_data_address_none {raw : List Nat} {m : Module}
    (hd : m.data_section = none) : (append_data raw m).2 = 0 := by
  simp [append_data, hd]

theorem build_packed_import (raw : List Nat) (d : Module) (fi : Nat) :
    (build_packed raw d fi).import_section = d.import_section := by
  simp [build_packed, rename_exports, add_function, (append_data_frame raw d).2.1]

theorem build_packed_table (raw : List Nat) (d : Module) (fi : Nat) :
    (build_packed raw d fi).table_section = d.table_section := by
  simp [build_packed, rename_exports, add_function,
    (append_data_frame raw d).2.2.2.1]

theorem build_packed_memory (raw : List Nat) (d : Module) (fi : Nat) :
    (build_packed raw d fi).memory_section = d.memory_section := by
  simp [build_packed, rename_exports, add_function,
    (append_data_frame raw d).2.2.2.2.1]

theorem build_packed_global (raw : List Nat) (d : Module) (fi : Nat) :
    (build_packed raw d fi).global_section = d.global_section := by
  simp [build_packed, rename_exports, add_function,
    (append_data_frame raw d).2.2.2.2.2.1]

theorem build_packed_start (raw : List Nat) (d : Module) (fi : Nat) :
    (build_packed raw d fi).start_section = d.start_section := by
  simp [build_packed, rename_exports, add_function,
    (append_data_frame raw d).2.2.2.2.2.2.2.1]

theorem build_packed_element (raw : List Nat) (d : Module) (fi : Nat) :
    (build_packed raw d fi).element_section = d.element_section := by
  simp [build_packed, rename_exports, add_function,
    (append_data_frame raw d).2.2.2.2.2.2.2.2.1]

theorem build_packed_type (raw : List Nat) (d : Module) (fi : Nat) :
    (build_packed raw d fi).type_section =
      some (d.type_section.getD [] ++ [ctor_sig]) := by
  simp [build_packed, rename_exports, add_function, ctor_sig,
    (append_data_frame raw d).1]

theorem build_packed_function (raw : List Nat) (d : Module) (fi : Nat) :
    (build_packed raw d fi).function_section =
      some (d.function_section.getD [] ++ [(d.type_section.getD []).length]) := by
  simp [build_packed, rename_exports, add_function,
    (append_data_frame raw d).1, (append_data_frame raw d).2.2.1]

theorem build_packed_code (raw : List Nat) (d : Module) (fi : Nat) :
    (build_packed raw d fi).code_section =
      some (d.code_section.getD [] ++
        [FuncBody.mk []
          (trampoline_body
            (usize_sub fi ((d.import_section.map import_functions).getD 0))
            (append_data raw d).2 raw.length)]) := by
  simp [build_packed, rename_exports, add_function,
    (append_data_frame raw d).2.2.2.2.2.2.2.2.2]

theorem build_packed_data (raw : List Nat) (d : Module) (fi : Nat) :
    (build_packed raw d fi).data_section =
      (append_data raw d).1.data_section := by
  simp [build_packed, rename_exports, add_function]

theorem build_packed_export (raw : List Nat) (d : Module) (fi : Nat) :
    (build_packed raw d fi).export_section =
      d.export_section.map fun entries =>
        entries.map (rename_entry
          ((d.function_section.map List.length).getD 0 +
            (d.import_section.map import_functions).getD 0)) := by
  simp [build_packed, rename_exports, add_function,
    (append_data_frame raw d).2.2.1, (append_data_frame raw d).2.1,
    (append_data_frame raw d).2.2.2.2.2.2.1]

theorem wrap32_eq_self {x : Int} (hlo : -(2 ^ 31) ≤ x) (hhi : x < 2 ^ 31) :
    wrap32 x = x := by
  unfold wrap32
  omega

theorem tmod_coe (a : Nat) :
    Int.tmod (Int.ofNat a) 4 = Int.ofNat (a % 4) := rfl

theorem data_scan_const {entries : List DataSegment} {entry : DataSegment}
    {k : Int} (hl : entries.getLast? = some entry)
    (hh : entry.offset.head? = some (Opcode.I32Const k)) (hk : 0 ≤ k)
    (hb : k + entry.value.length + 8 < 2 ^ 31) :
    data_scan entries =
      (entry.index,
       k + ((entry.value.length : Int) + 4) -
         ((entry.value.length % 4 : Nat) : Int)) := by
  have hL0 : (0 : Int) ≤ Int.ofNat entry.value.length := Int.ofNat_nonneg _
  have hLb : (Int.ofNat entry.value.length) + k + 8 < 2 ^ 31 := by
    rw [Int.ofNat_eq_natCast]; omega
  have hm1 : Int.ofNat (entry.value.length % 4) ≤ Int.ofNat entry.value.length := by
    rw [Int.ofNat_eq_natCast, Int.ofNat_eq_natCast]
    exact_mod_cast Nat.mod_le _ _
  have hm2 : (0 : Int) ≤ Int.ofNat (entry.value.length % 4) := Int.ofNat_nonneg _
  have hm3 : Int.ofNat (entry.value.length % 4) < 4 := by
    rw [Int.ofNat_eq_natCast]
    exact_mod_cast Nat.mod_lt _ (by decide)
  simp only [data_scan, hl, hh]
  have e1 : wrap32 (Int.ofNat entry.value.length) = Int.ofNat entry.value.length :=
    wrap32_eq_self (by omega) (by omega)
  rw [e1, tmod_coe]
  have e2 : add32 (Int.ofNat entry.value.length) 4 =
      Int.ofNat entry.value.length + 4 :=
    wrap32_eq_self (by omega) (by omega)
  rw [e2]
  have e3 : add32 k (Int.ofNat entry.value.length + 4) =
      k + (Int.ofNat entry.value.length + 4) :=
    wrap32_eq_self (by omega) (by omega)
  rw [e3]
  have e4 : sub32 (k + (Int.ofNat entry.value.length + 4))
      (Int.ofNat (entry.value.length % 4)) =
      k + (Int.ofNat entry.value.length + 4) -
        Int.ofNat (entry.value.length % 4) :=
    wrap32_eq_self (by omega) (by omega)
  rw [e4]
  rw [Int.ofNat_eq_natCast, Int.ofNat_eq_natCast]

theorem call_ne_create : CALL_SYMBOL ≠ CREATE_SYMBOL := by decide

theorem rename_entry_no_create (lfi : Nat) (e : ExportEntry) :
    (rename_entry lfi e).field ≠ CREATE_SYMBOL := by
  unfold rename_entry
  split
  next hc => exact call_ne_create
  next hc =>
    intro habs
    exact hc (beq_iff_eq.mpr habs.symm)

theorem rename_entry_of_ne (lfi : Nat) (e : ExportEntry)
    (h : e.field ≠ CREATE_SYMBOL) : rename_entry lfi e = e := by
  unfold rename_entry
  split
  next hc => exact absurd (beq_iff_eq.mp hc).symm h
  · rfl

theorem rename_entry_of_create (lfi : Nat) (e : ExportEntry)
    (h : e.field = CREATE_SYMBOL) :
    rename_entry lfi e =
      ExportEntry.mk CALL_SYMBOL (Internal.Function (lfi % 2 ^ 32)) := by
  unfold rename_entry
  split
  · rfl
  next hc => exact absurd (beq_iff_eq.mpr h.symm) hc

theorem find_create_map_rename (lfi : Nat) (l : List ExportEntry) :
    (l.map (rename_entry lfi)).find?
      (fun entry => CREATE_SYMBOL == entry.field) = none := by
  rw [List.find?_eq_none]
  intro x hx
  obtain ⟨e, _, he⟩ := List.mem_map.mp hx
  subst he
  simp only [beq_iff_eq]
  intro habs
  exact rename_entry_no_create lfi e habs.symm

/-- Claim C1: FALSE on the code (code bug). For the deployer `import_deployer`
— one imported function, constructor exported at combined index 1 (local index
0) — `pack_instance` succeeds and the synthesized trampoline emits `Call 0`,
the Function-section-local index, whereas the claim (and WebAssembly `Call`
semantics, which use the combined index space) requires
`Call (local_index + import_function_count) = Call 1`. `Call 0` targets the
imported function, not the constructor. -/
theorem C1_trampoline_calls_local_index :
    (pack_instance [] import_deployer).toOption.map
      (fun m => (m.code_section.getD []).getLast?.map FuncBody.code) =
      some (some
        [Opcode.GetLocal 0, Opcode.Call 0, Opcode.GetLocal 0,
         Opcode.I32Const 0, Opcode.I32Store 0 8, Opcode.GetLocal 0,
         Opcode.I32Const 0, Opcode.I32Store 0 12, Opcode.End]) ∧
    import_functions [ImportEntry.mk "env" "f" (External.Function 0)] = 1 := by
  constructor
  · rfl
  · rfl

/-- Claim C2: FALSE on the code (code bug). `pack.rs` line 41 indexes the
Function section with the export's combined `function_index`, not with
`local_index = combined_index - import_function_count`. For
`import_deployer_short` — one imported function, a one-entry Function section,
`_create` exported at combined index 1 (local index 0) — the code returns
`MalformedModule`, although the lookup at the local index 0 the claim
describes succeeds and yields the valid `(i32) → ()` signature. -/
theorem C2_signature_lookup_uses_combined_index :
    pack_instance [] import_deployer_short =
      Except.error Error.MalformedModule ∧
    (import_deployer_short.function_section.getD []).get? 0 = some 0 ∧
    (import_deployer_short.type_section.getD []).get? 0 = some ctor_sig := by
  refine ⟨?_, rfl, rfl⟩
  rfl

/-- Claim C10: FALSE on the code (code bug). For `import_export_deployer`,
whose `_create` export targets combined index 0 — the imported function, below
the import function count 1 — `pack_instance` is accepted and evaluates the
`usize` subtraction `0 - 1`, which panics in debug builds and wraps in release
builds: the emitted opcode is `Call 4294967295` (`(2^64 - 1) as u32`). The
translation is therefore evaluated on an input where the `_create` function
index is smaller than the import function count. -/
theorem C10_usize_underflow_on_accepted_input :
    (pack_instance [] import_export_deployer).toOption.map
      (fun m => (m.code_section.getD []).getLast?.map FuncBody.code) =
      some (some
        [Opcode.GetLocal 0, Opcode.Call 4294967295, Opcode.GetLocal 0,
         Opcode.I32Const 0, Opcode.I32Store 0 8, Opcode.GetLocal 0,
         Opcode.I32Const 0, Opcode.I32Store 0 12, Opcode.End]) ∧
    0 < import_functions [ImportEntry.mk "env" "f" (External.Function 0)] := by
  constructor
  · rfl
  · decide

/-- Claim C3 counterexample: for `nodata_deployer`, whose Data section is
absent, `pack_instance` succeeds yet the packed module still has no Data
section at all — no runtime-bytes segment is appended (the source's section
loop never visits a Data section; see its TODO remark). The claim's statement
that a segment at offset 0 is appended is false in the absent case. -/
theorem C3_cex_absent_data_section :
    (pack_instance [1, 2, 3] nodata_deployer).toOption.map
      Module.data_section = some none := by
  rfl

/-- Claim C4 counterexample: for `fallback_deployer`, whose last data segment
has memory index 5 and an offset expression headed by `GetGlobal 0`, the
appended segment has memory index 0, not the last segment's index 5: in the
non-`I32Const` fallback the source uses the pair `(0, 0)`, copying nothing. -/
theorem C4_cex_fallback_memory_index :
    (pack_instance [9] fallback_deployer).toOption.map Module.data_section =
      some (some
        [DataSegment.mk 5 [Opcode.GetGlobal 0, Opcode.End] [7, 7],
         DataSegment.mk 0 [Opcode.I32Const 0, Opcode.End] [9]]) ∧
    (5 : Nat) ≠ 0 := by
  constructor
  · rfl
  · decide

/-- Claim C5 counterexample: `dupcall_deployer` already exports `_call` and is
accepted by `pack_instance`, whose result then contains two exports named
`_call` — the pre-existing one is left as-is while `_create` is renamed — so
the packed module does not contain exactly one export named `_call`. -/
theorem C5_cex_two_call_exports :
    (pack_instance [] dupcall_deployer).toOption.map
      (fun m => (m.export_section.getD []).countP
        (fun e => e.field == CALL_SYMBOL)) = some 2 := by
  rfl

/-- Claim C7 counterexample: for `unsorted_deployer` — an earlier segment
covering offsets `[100, 104)` and a last segment at the unaligned offset 1
with no bytes — the appended segment is placed at offset
`1 + (0 + 4) - 0 = 5`, which is neither 4-byte aligned nor strictly greater
than the end (104) of the earlier `I32Const` segment: the code inspects only
the last segment and inherits its misalignment. -/
theorem C7_cex_unaligned_and_overlapping :
    (pack_instance [3] unsorted_deployer).toOption.map Module.data_section =
      some (some
        [DataSegment.mk 0 [Opcode.I32Const 100, Opcode.End] [0, 0, 0, 0],
         DataSegment.mk 0 [Opcode.I32Const 1, Opcode.End] [],
         DataSegment.mk 0 [Opcode.I32Const 5, Opcode.End] [3]]) ∧
    ¬((5 : Int) % 4 = 0) ∧ ¬((100 : Int) + 4 < 5) := by
  refine ⟨?_, by decide, by decide⟩
  rfl

theorem data_scan_fallback {entries : List DataSegment} {entry : DataSegment}
    (hl : entries.getLast? = some entry) {op : Opcode}
    (hh : entry.offset.head? = some op)
    (hno : ∀ k : Int, op ≠ Opcode.I32Const k) : data_scan entries = (0, 0) := by
  unfold data_scan
  rw [hl]
  simp only [hh]
  cases op <;> first
    | rfl
    | exact absurd rfl (hno _)

/-- Claim C3 (amended): when the deployer's Data section is present and empty,
a successful `pack_instance` appends the runtime-bytes segment at offset 0
(memory index 0, offset expression `[I32Const 0, End]`, bytes equal to
`raw_module`); when the Data section is absent, no segment is appended at all
and the packed module still has no Data section. -/
theorem C3_runtime_segment_empty_or_absent_data (raw : List Nat) (d m : Module)
    (h : pack_instance raw d = Except.ok m) :
    (d.data_section = some [] →
      m.data_section =
        some [DataSegment.mk 0 [Opcode.I32Const 0, Opcode.End] raw]) ∧
    (d.data_section = none → m.data_section = none) := by
  obtain ⟨fi, hres, hm⟩ := pack_ok_elim h
  subst hm
  constructor
  · intro hd
    rw [build_packed_data, append_data_data_some hd]
    rfl
  · intro hd
    rw [build_packed_data, append_data_data_none hd]

theorem C3_runtime_segment_empty_or_absent_data_witness :
    (basic_deployer.data_section = some [] →
      (build_packed [5, 6] basic_deployer 0).data_section =
        some [DataSegment.mk 0 [Opcode.I32Const 0, Opcode.End] [5, 6]]) ∧
    (basic_deployer.data_section = none →
      (build_packed [5, 6] basic_deployer 0).data_section = none) :=
  C3_runtime_segment_empty_or_absent_data [5, 6] basic_deployer
    (build_packed [5, 6] basic_deployer 0) rfl

/-- Claim C4 (amended): for an accepted deployer with a non-empty Data
section, if the last segment's offset expression begins with `I32Const k`
(with `0 ≤ k` and no `i32` overflow) then the appended segment copies that
segment's memory index, sits at offset `k + (L + 4) - (L mod 4)` where `L` is
that segment's byte length, and carries the runtime bytes; if the last
segment's offset expression does not begin with `I32Const`, the appended
segment's offset is 0 and its memory index is 0 — not copied from the last
segment as the original claim stated. -/
theorem C4_appended_segment_placement (raw : List Nat) (d m : Module)
    (entries : List DataSegment) (entry : DataSegment)
    (h : pack_instance raw d = Except.ok m)
    (hd : d.data_section = some entries)
    (hl : entries.getLast? = some entry) :
    (∀ k : Int, entry.offset.head? = some (Opcode.I32Const k) → 0 ≤ k →
      k + entry.value.length + 8 < 2 ^ 31 →
      m.data_section = some (entries ++
        [DataSegment.mk entry.index
          [Opcode.I32Const
            (k + ((entry.value.length : Int) + 4) -
              ((entry.value.length % 4 : Nat) : Int)),
           Opcode.End] raw])) ∧
    (∀ op : Opcode, entry.offset.head? = some op →
      (∀ k : Int, op ≠ Opcode.I32Const k) →
      m.data_section = some (entries ++
        [DataSegment.mk 0 [Opcode.I32Const 0, Opcode.End] raw])) := by
  obtain ⟨fi, hres, hm⟩ := pack_ok_elim h
  subst hm
  rw [build_packed_data, append_data_data_some hd]
  constructor
  · intro k hh hk hb
    rw [data_scan_const hl hh hk hb]
  · intro op hh hno
    rw [data_scan_fallback hl hh hno]

theorem C4_appended_segment_placement_witness :
    (build_packed [8, 8] aligned_deployer 0).data_section =
      some [DataSegment.mk 0 [Opcode.I32Const 16, Opcode.End] [0, 0, 0],
            DataSegment.mk 0 [Opcode.I32Const 20, Opcode.End] [8, 8]] := by
  have h := (C4_appended_segment_placement [8, 8] aligned_deployer
    (build_packed [8, 8] aligned_deployer 0)
    [DataSegment.mk 0 [Opcode.I32Const 16, Opcode.End] [0, 0, 0]]
    (DataSegment.mk 0 [Opcode.I32Const 16, Opcode.End] [0, 0, 0])
    rfl rfl rfl).1 16 rfl (by decide) (by decide)
  norm_num at h
  exact h

theorem countP_map_rename_create (lfi : Nat) (l : List ExportEntry) :
    (l.map (rename_entry lfi)).countP
      (fun e => e.field == CREATE_SYMBOL) = 0 := by
  rw [List.countP_eq_zero]
  intro x hx
  obtain ⟨e, _, he⟩ := List.mem_map.mp hx
  subst he
  simp only [beq_iff_eq]
  exact rename_entry_no_create lfi e

theorem countP_map_rename_call (lfi : Nat) (l : List ExportEntry)
    (h0 : l.countP (fun e => e.field == CALL_SYMBOL) = 0) :
    (l.map (rename_entry lfi)).countP (fun e => e.field == CALL_SYMBOL) =
      l.countP (fun e => e.field == CREATE_SYMBOL) := by
  induction l with
  | nil => rfl
  | cons e l ih =>
    rw [List.countP_cons] at h0
    have he0 : (e.field == CALL_SYMBOL) = false := by
      cases hc : e.field == CALL_SYMBOL
      · rfl
      · rw [hc] at h0
        simp at h0
    rw [he0] at h0
    simp only [Bool.false_eq_true, if_false, Nat.add_zero] at h0
    rw [List.map_cons, List.countP_cons, List.countP_cons, ih h0]
    cases hc : e.field == CREATE_SYMBOL
    · rw [rename_entry_of_ne lfi e (by simpa using hc), he0]
    · rw [rename_entry_of_create lfi e (beq_iff_eq.mp hc)]
      simp

/-- Claim C5 (amended): for an accepted deployer that exports exactly one
entry named `_create` and none named `_call`, the packed module contains
exactly one export named `_call`, that export is of function kind, and no
export named `_create` remains. (In general the rename turns every `_create`
into `_call` but leaves pre-existing `_call` exports in place, so without the
two preconditions the count can exceed one.) -/
theorem C5_unique_call_export (raw : List Nat) (d m : Module)
    (entries : List ExportEntry)
    (h : pack_instance raw d = Except.ok m)
    (hexp : d.export_section = some entries)
    (hone : entries.countP (fun e => e.field == CREATE_SYMBOL) = 1)
    (hnone : entries.countP (fun e => e.field == CALL_SYMBOL) = 0) :
    ∃ out, m.export_section = some out ∧
      out.countP (fun e => e.field == CALL_SYMBOL) = 1 ∧
      out.countP (fun e => e.field == CREATE_SYMBOL) = 0 ∧
      ∀ e ∈ out, e.field = CALL_SYMBOL →
        ∃ n, e.internal = Internal.Function n := by
  obtain ⟨fi, hres, hm⟩ := pack_ok_elim h
  subst hm
  refine ⟨entries.map (rename_entry
    ((d.function_section.map List.length).getD 0 +
      (d.import_section.map import_functions).getD 0)), ?_, ?_, ?_, ?_⟩
  · rw [build_packed_export, hexp]
    rfl
  · rw [countP_map_rename_call _ _ hnone]
    exact hone
  · exact countP_map_rename_create _ _
  · intro e he hcall
    obtain ⟨x, hx, hxe⟩ := List.mem_map.mp he
    subst hxe
    cases hc : x.field == CREATE_SYMBOL
    · exfalso
      rw [rename_entry_of_ne _ x (by simpa using hc)] at hcall
      have := List.countP_eq_zero.mp hnone x hx
      simp only [beq_iff_eq] at this
      exact this hcall
    · rw [rename_entry_of_create _ x (beq_iff_eq.mp hc)]
      exact ⟨_, rfl⟩

theorem C5_unique_call_export_witness :
    ∃ out, (build_packed [5, 6] basic_deployer 0).export_section = some out ∧
      out.countP (fun e => e.field == CALL_SYMBOL) = 1 ∧
      out.countP (fun e => e.field == CREATE_SYMBOL) = 0 ∧
      ∀ e ∈ out, e.field = CALL_SYMBOL →
        ∃ n, e.internal = Internal.Function n :=
  C5_unique_call_export [5, 6] basic_deployer
    (build_packed [5, 6] basic_deployer 0)
    [ExportEntry.mk "_create" (Internal.Function 0)]
    rfl rfl (by decide) (by decide)

/-- Claim C6: for every accepted deployer, every export that was named
`_create` now targets `Internal.Function (import_function_count +
previous_function_section_length)` — the freshly added trampoline, a locally
defined function whose Function-section entry at local index
`previous_function_section_length` references the appended Type-section entry
`(i32) → ()`: exactly one `i32` parameter and no result. The bound keeps the
`as u32` cast of the export target the identity. -/
theorem C6_call_targets_fresh_trampoline (raw : List Nat) (d m : Module)
    (h : pack_instance raw d = Except.ok m)
    (hbound : (d.function_section.map List.length).getD 0 +
      (d.import_section.map import_functions).getD 0 < 2 ^ 32) :
    ∃ entries, d.export_section = some entries ∧
      (∃ i e, entries.get? i = some e ∧ e.field = CREATE_SYMBOL) ∧
      ∃ out, m.export_section = some out ∧
        (∀ i e, entries.get? i = some e → e.field = CREATE_SYMBOL →
          out.get? i = some (ExportEntry.mk CALL_SYMBOL
            (Internal.Function
              ((d.import_section.map import_functions).getD 0 +
                (d.function_section.map List.length).getD 0)))) ∧
        ∃ fs, m.function_section = some fs ∧
          fs.get? ((d.function_section.map List.length).getD 0) =
            some ((d.type_section.getD []).length) ∧
          ∃ ts, m.type_section = some ts ∧
            ts.get? ((d.type_section.getD []).length) = some ctor_sig := by
  obtain ⟨fi, hres, hm⟩ := pack_ok_elim h
  obtain ⟨entries, found_entry, hexp, hfind, hint,
    fentries, type_id, types, hfun, hget, htyp, hty⟩ := resolve_create_ok hres
  subst hm
  refine ⟨entries, hexp, ?_, ?_⟩
  · obtain ⟨i, hi⟩ := List.get?_of_mem (List.mem_of_find?_eq_some hfind)
    refine ⟨i, found_entry, hi, ?_⟩
    have hp := List.find?_some hfind
    simp only [beq_iff_eq] at hp
    exact hp.symm
  · refine ⟨entries.map (rename_entry
      ((d.function_section.map List.length).getD 0 +
        (d.import_section.map import_functions).getD 0)), ?_, ?_, ?_⟩
    · rw [build_packed_export, hexp]
      rfl
    · intro i e hi hcreate
      rw [List.get?_map, hi, Option.map_some',
        rename_entry_of_create _ e hcreate, Nat.mod_eq_of_lt hbound,
        Nat.add_comm]
    · refine ⟨d.function_section.getD [] ++ [(d.type_section.getD []).length],
        build_packed_function raw d fi, ?_, ?_⟩
      · rw [hfun]
        simp only [Option.map_some, Option.getD_some]
        exact List.get?_concat_length _ _
      · refine ⟨d.type_section.getD [] ++ [ctor_sig],
          build_packed_type raw d fi, ?_⟩
        exact List.get?_concat_length _ _

theorem C6_call_targets_fresh_trampoline_witness :
    ∃ entries, basic_deployer.export_section = some entries ∧
      (∃ i e, entries.get? i = some e ∧ e.field = CREATE_SYMBOL) ∧
      ∃ out, (build_packed [5, 6] basic_deployer 0).export_section = some out ∧
        (∀ i e, entries.get? i = some e → e.field = CREATE_SYMBOL →
          out.get? i = some (ExportEntry.mk CALL_SYMBOL
            (Internal.Function
              ((basic_deployer.import_section.map import_functions).getD 0 +
                (basic_deployer.function_section.map List.length).getD 0)))) ∧
        ∃ fs, (build_packed [5, 6] basic_deployer 0).function_section = some fs ∧
          fs.get? ((basic_deployer.function_section.map List.length).getD 0) =
            some ((basic_deployer.type_section.getD []).length) ∧
          ∃ ts, (build_packed [5, 6] basic_deployer 0).type_section = some ts ∧
            ts.get? ((basic_deployer.type_section.getD []).length) =
              some ctor_sig :=
  C6_call_targets_fresh_trampoline [5, 6] basic_deployer
    (build_packed [5, 6] basic_deployer 0) rfl (by decide)

/-- Claim C7 (amended): when the last pre-existing data segment's offset
expression begins with `I32Const k` (with `0 ≤ k` and no `i32` overflow), the
appended segment's offset `n` satisfies `n ≡ k (mod 4)` — so it is 4-byte
aligned exactly when `k` is — and is strictly greater than `k + L`, the end of
the LAST segment. The code inspects only the last segment, so neither
alignment nor being beyond the end of every earlier `I32Const` segment holds
in general. -/
theorem C7_offset_past_last_segment (raw : List Nat) (d m : Module)
    (entries : List DataSegment) (entry : DataSegment) (k : Int)
    (h : pack_instance raw d = Except.ok m)
    (hd : d.data_section = some entries)
    (hl : entries.getLast? = some entry)
    (hh : entry.offset.head? = some (Opcode.I32Const k))
    (hk : 0 ≤ k) (hb : k + entry.value.length + 8 < 2 ^ 31) :
    ∃ n : Int,
      m.data_section = some (entries ++
        [DataSegment.mk entry.index [Opcode.I32Const n, Opcode.End] raw]) ∧
      n % 4 = k % 4 ∧ k + entry.value.length < n := by
  obtain ⟨fi, hres, hm⟩ := pack_ok_elim h
  subst hm
  refine ⟨k + ((entry.value.length : Int) + 4) -
    ((entry.value.length % 4 : Nat) : Int), ?_, ?_, ?_⟩
  · rw [build_packed_data, append_data_data_some hd,
      data_scan_const hl hh hk hb]
  · omega
  · have : ((entry.value.length % 4 : Nat) : Int) < 4 := by
      exact_mod_cast Nat.mod_lt _ (by decide)
    omega

theorem C7_offset_past_last_segment_witness :
    ∃ n : Int,
      (build_packed [8, 8] aligned_deployer 0).data_section =
        some ([DataSegment.mk 0 [Opcode.I32Const 16, Opcode.End] [0, 0, 0]] ++
          [DataSegment.mk 0 [Opcode.I32Const n, Opcode.End] [8, 8]]) ∧
      n % 4 = (16 : Int) % 4 ∧
      (16 : Int) +
        (DataSegment.mk 0 [Opcode.I32Const 16, Opcode.End] [0, 0, 0]).value.length
        < n :=
  C7_offset_past_last_segment [8, 8] aligned_deployer
    (build_packed [8, 8] aligned_deployer 0)
    [DataSegment.mk 0 [Opcode.I32Const 16, Opcode.End] [0, 0, 0]]
    (DataSegment.mk 0 [Opcode.I32Const 16, Opcode.End] [0, 0, 0]) 16
    rfl rfl rfl rfl (by decide) (by decide)

/-- Claim C8: `pack_instance` is a terminal stage. A successful pack renames
every export named `_create` (to `_call`), and the rewrite introduces no new
`_create` entry, so packing the packed module again — with any runtime bytes —
fails with `NoCreateSymbol`. -/
theorem C8_pack_twice_fails (raw raw2 : List Nat) (d m : Module)
    (h : pack_instance raw d = Except.ok m) :
    pack_instance raw2 m = Except.error Error.NoCreateSymbol := by
  obtain ⟨fi, hres, hm⟩ := pack_ok_elim h
  obtain ⟨entries, found_entry, hexp, -, -, -⟩ := resolve_create_ok hres
  subst hm
  have hexp2 : (build_packed raw d fi).export_section =
      some (entries.map (rename_entry
        ((d.function_section.map List.length).getD 0 +
          (d.import_section.map import_functions).getD 0))) := by
    rw [build_packed_export, hexp]
    rfl
  have hres2 : resolve_create (build_packed raw d fi) =
      Except.error Error.NoCreateSymbol := by
    unfold resolve_create
    rw [hexp2]
    simp only [find_create_map_rename]
  unfold pack_instance
  rw [hres2]

theorem C8_pack_twice_fails_witness :
    pack_instance [] (build_packed [5, 6] basic_deployer 0) =
      Except.error Error.NoCreateSymbol :=
  C8_pack_twice_fails [5, 6] [] basic_deployer
    (build_packed [5, 6] basic_deployer 0) rfl

/-- Claim C9 (frame conditions): a successful `pack_instance` leaves the
Import, Table, Memory, Global, Start and Element sections untouched, only
appends to the Type, Function, Code and Data sections (an absent Data section
stays absent), and rewrites no export entry other than those named
`_create` — entries with any other field name keep their name, kind and
target index at their original position. -/
theorem C9_frame_conditions (raw : List Nat) (d m : Module)
    (h : pack_instance raw d = Except.ok m) :
    m.import_section = d.import_section ∧
    m.table_section = d.table_section ∧
    m.memory_section = d.memory_section ∧
    m.global_section = d.global_section ∧
    m.start_section = d.start_section ∧
    m.element_section = d.element_section ∧
    (∃ ts, d.type_section = some ts ∧
      m.type_section = some (ts ++ [ctor_sig])) ∧
    (∃ fs x, d.function_section = some fs ∧
      m.function_section = some (fs ++ [x])) ∧
    (∃ body, m.code_section = some (d.code_section.getD [] ++ [body])) ∧
    (d.data_section = none → m.data_section = none) ∧
    (∀ segs, d.data_section = some segs →
      ∃ s, m.data_section = some (segs ++ [s])) ∧
    ∃ entries out, d.export_section = some entries ∧
      m.export_section = some out ∧ out.length = entries.length ∧
      ∀ i e, entries.get? i = some e → e.field ≠ CREATE_SYMBOL →
        out.get? i = some e := by
  obtain ⟨fi, hres, hm⟩ := pack_ok_elim h
  obtain ⟨entries, found_entry, hexp, -, -,
    fentries, type_id, types, hfun, -, htyp, -⟩ := resolve_create_ok hres
  subst hm
  refine ⟨build_packed_import raw d fi, build_packed_table raw d fi,
    build_packed_memory raw d fi, build_packed_global raw d fi,
    build_packed_start raw d fi, build_packed_element raw d fi,
    ⟨types, htyp, ?_⟩, ⟨fentries, (d.type_section.getD []).length, hfun, ?_⟩,
    ⟨_, build_packed_code raw d fi⟩, ?_, ?_, ?_⟩
  · rw [build_packed_type, htyp]
    rfl
  · rw [build_packed_function, hfun]
    rfl
  · intro hd
    rw [build_packed_data, append_data_data_none hd]
  · intro segs hd
    exact ⟨_, by rw [build_packed_data, append_data_data_some hd]⟩
  · refine ⟨entries, entries.map (rename_entry
      ((d.function_section.map List.length).getD 0 +
        (d.import_section.map import_functions).getD 0)), hexp, ?_, ?_, ?_⟩
    · rw [build_packed_export, hexp]
      rfl
    · exact List.length_map _ _
    · intro i e hi hne
      rw [List.get?_map, hi, Option.map_some', rename_entry_of_ne _ e hne]

theorem C9_frame_conditions_witness :
    (build_packed [7] rich_deployer 0).import_section =
        rich_deployer.import_section ∧
    (build_packed [7] rich_deployer 0).table_section =
        rich_deployer.table_section ∧
    (build_packed [7] rich_deployer 0).memory_section =
        rich_deployer.memory_section ∧
    (build_packed [7] rich_deployer 0).global_section =
        rich_deployer.global_section ∧
    (build_packed [7] rich_deployer 0).start_section =
        rich_deployer.start_section ∧
    (build_packed [7] rich_deployer 0).element_section =
        rich_deployer.element_section ∧
    (∃ ts, rich_deployer.type_section = some ts ∧
      (build_packed [7] rich_deployer 0).type_section =
        some (ts ++ [ctor_sig])) ∧
    (∃ fs x, rich_deployer.function_section = some fs ∧
      (build_packed [7] rich_deployer 0).function_section =
        some (fs ++ [x])) ∧
    (∃ body, (build_packed [7] rich_deployer 0).code_section =
      some (rich_deployer.code_section.getD [] ++ [body])) ∧
    (rich_deployer.data_section = none →
      (build_packed [7] rich_deployer 0).data_section = none) ∧
    (∀ segs, rich_deployer.data_section = some segs →
      ∃ s, (build_packed [7] rich_deployer 0).data_section =
        some (segs ++ [s])) ∧
    ∃ entries out, rich_deployer.export_section = some entries ∧
      (build_packed [7] rich_deployer 0).export_section = some out ∧
      out.length = entries.length ∧
      ∀ i e, entries.get? i = some e → e.field ≠ CREATE_SYMBOL →
        out.get? i = some e :=
  C9_frame_conditions [7] rich_deployer (build_packed [7] rich_deployer 0) rfl

end PWasm
